import Mathlib

/-!
Verification development for the domo_activity_log repository.

Shallow embedding of the Python sources:
- `auth.py` (`Authentication`): OAuth2 token lifecycle with lazy refresh.
- `utils.py` (`make_request`, `date_to_unix_ms`): HTTP content negotiation
  and date-string conversion.
- `activty_log_pull.py` (`DomoActivityLog.get_logs`): paginated audit-log
  fetch loop.
- `domo_dataset.py` (`DomoDataset`): dataset creation, schema inference and
  upload.

External effects (HTTP responses, the wall clock, the local timezone) are
passed explicitly as environment arguments; machine time is modelled as
`Int` seconds, timestamps as `Int` milliseconds.  Each function returning
a result also returns its observable side effects (post-state, request
trace, body encoding) so that claims about effect ordering can be stated.
-/

/-- A JSON-ish field value carried by an activity-log record.  Records from
the audit endpoint are opaque mappings; only the `domain` tag added by
`get_logs` is ever inspected, so values are modelled as strings or null. -/
inductive FieldVal where
  | str (s : String)
  | null
deriving DecidableEq

/-- One activity-log record: an ordered association of field names to
values, as in a pandas DataFrame row built from a JSON object. -/
abbrev Record := List (String × FieldVal)

/-- Python truthiness of an `Optional[str]`: `None` and the empty string
are falsy, every other string is truthy. -/
def truthyStr : Option String → Bool
  | none => false
  | some s => !s.isEmpty

/-- The value stored by pandas when assigning an `Optional[str]` into a
column: `None` becomes a null cell. -/
def optToVal : Option String → FieldVal
  | none => .null
  | some s => .str s

/-- pandas column assignment `df[k] = v`: if column `k` exists its cells
are replaced in place, otherwise the column is appended at the end. -/
def setField (r : Record) (k : String) (v : FieldVal) : Record :=
  if r.any (fun p => p.1 == k) then
    r.map (fun p => if p.1 == k then (k, v) else p)
  else
    r ++ [(k, v)]

/-! ## auth.py -/

/-- State of an `auth.Authentication` object.  `tok`, `tokenExpiry` and
`domain` model the `_token`, `_token_expiry` and `_domain` fields;
`tokenExpiry` is absolute time in seconds. -/
structure Authentication where
  client_id : String
  secret : String
  scope : String
  token_expiry_buffer : Int
  tok : Option String
  tokenExpiry : Option Int
  domain : Option String
deriving DecidableEq

/-- A fresh `Authentication(client_id, secret, scope)` with the default
expiry buffer of 5 minutes and no token held. -/
def Authentication.init (client_id secret scope : String) : Authentication :=
  ⟨client_id, secret, scope, 5, none, none, none⟩

/-- `Authentication._is_token_expired`: true when no expiry is stored or
`now >= expiry - timedelta(minutes=token_expiry_buffer)`. -/
def Authentication.is_token_expired (a : Authentication) (now : Int) : Bool :=
  match a.tokenExpiry with
  | none => true
  | some e => decide (now ≥ e - a.token_expiry_buffer * 60)

/-- Outcome of one HTTP request to the OAuth token endpoint:
transport/HTTP-status failure, a non-JSON body, or a parsed JSON payload
with its optional `access_token`, `expires_in` and `domain` fields. -/
inductive TokenResp where
  | requestError (msg : String)
  | badJson
  | payload (access_token : Option String) (expires_in : Option Int) (domain : Option String)
deriving DecidableEq

/-- `Authentication._refresh_token`.  Returns the raised `DomoAuthError`
message (if any) together with the post-state.  Mirrors the source order:
the token field is assigned from the payload before the falsy check, so a
malformed payload leaves `_token` set to the falsy payload value while
`_token_expiry` and `_domain` keep their previous values. -/
def Authentication.refresh_token (a : Authentication) (now : Int) :
    TokenResp → Option String × Authentication
  | .requestError m => (some ("Failed to get access token: " ++ m), a)
  | .badJson => (some "Failed to parse token response as JSON", a)
  | .payload tokval ei dom =>
    let a1 := { a with tok := tokval }
    if truthyStr tokval then
      (none, { a1 with tokenExpiry := some (now + ei.getD 3600), domain := dom })
    else
      (some "No access token in response", a1)

/-- The `Authentication.token` property: refresh when no token is held or
the held token is stale, then return `_token`.  Result: the returned value
(or raised error), the post-state, and whether a refresh was performed. -/
def Authentication.token (a : Authentication) (now : Int) (resp : TokenResp) :
    Except String (Option String) × Authentication × Bool :=
  if !truthyStr a.tok || a.is_token_expired now then
    match a.refresh_token now resp with
    | (some e, a1) => (.error e, a1, true)
    | (none, a1) => (.ok a1.tok, a1, true)
  else
    (.ok a.tok, a, false)

/-! ## utils.py: make_request -/

/-- How the request body was handed to `requests.request`: through the
`json=` parameter (serialized as JSON), through `data=` (raw payload), or
no body at all. -/
inductive SentBody where
  | jsonBody (d : String)
  | rawBody (d : String)
  | noBody
deriving DecidableEq

/-- The HTTP response an invocation of `make_request` observes: status
code, response `Content-Type` header, raw text body, and the result of
parsing the body as JSON (`none` when the body is not valid JSON; the
parsed value is represented opaquely). -/
structure HttpResponse where
  status : Nat
  contentType : String
  body : String
  jsonParse : Option String
deriving DecidableEq

/-- What `make_request` returns: a decoded JSON value or the raw text. -/
inductive RespVal where
  | jsonVal (v : String)
  | textVal (s : String)
deriving DecidableEq

/-- `headers.get(k, dflt)` on a Python dict modelled as an association
list. -/
def headerGetD (headers : List (String × String)) (k dflt : String) : String :=
  (headers.lookup k).getD dflt

/-- Whether `needle` occurs as a contiguous run inside the second list:
the Python `in` test on strings. -/
def hasInfix (needle : List Char) : List Char → Bool
  | [] => needle.isEmpty
  | b :: bs => needle.isPrefixOf (b :: bs) || hasInfix needle bs

/-- The `'application/json' in response.headers.get('Content-Type', '')`
test of `make_request`. -/
def hasJsonContentType (ct : String) : Bool :=
  hasInfix "application/json".data ct.data

/-- `utils.make_request`.  Chooses the body encoding from the request
`Content-Type` header (defaulting to `application/json` when unset),
raises via `response.raise_for_status()` (which raises exactly for
status codes 400-599), then decodes the response as JSON when the
response `Content-Type` contains `application/json` and as raw text
otherwise.  Returns the result together with the body encoding used. -/
def make_request (url : String) (headers : List (String × String)) (method : String)
    (data : Option String) (resp : HttpResponse) : Except String RespVal × SentBody :=
  let content_type := headerGetD headers "Content-Type" "application/json"
  let sent : SentBody :=
    match data with
    | none => .noBody
    | some d => if content_type = "application/json" then .jsonBody d else .rawBody d
  if 400 ≤ resp.status ∧ resp.status < 600 then
    (.error ("Failed to make " ++ method ++ " request to " ++ url ++ ": HTTP error"), sent)
  else if hasJsonContentType resp.contentType then
    match resp.jsonParse with
    | some v => (.ok (.jsonVal v), sent)
    | none => (.error ("Invalid JSON response from " ++ url), sent)
  else
    (.ok (.textVal resp.body), sent)

/-! ## utils.py: date_to_unix_ms -/

/-- Gregorian leap-year test. -/
def isLeap (y : Nat) : Bool := (y % 4 == 0 && y % 100 != 0) || (y % 400 == 0)

/-- Length of month `m` (1-12) given the leap flag of its year. -/
def monthLen (leap : Bool) : Nat → Nat
  | 2 => if leap then 29 else 28
  | 4 => 30
  | 6 => 30
  | 9 => 30
  | 11 => 30
  | _ => 31

/-- Cumulative days of a year strictly before month `m` (1-12), given the
year's leap flag. -/
def monthOffset (leap : Bool) (m : Nat) : Nat :=
  let l : Nat := if leap then 1 else 0
  match m with
  | 1 => 0
  | 2 => 31
  | 3 => 59 + l
  | 4 => 90 + l
  | 5 => 120 + l
  | 6 => 151 + l
  | 7 => 181 + l
  | 8 => 212 + l
  | 9 => 243 + l
  | 10 => 273 + l
  | 11 => 304 + l
  | _ => 334 + l

/-- Number of days in a month of year `y`, as validated by the `datetime`
constructor. -/
def daysInMonth (y m : Nat) : Nat := monthLen (isLeap y) m

/-- Total days in the complete years `1..y` of the proleptic Gregorian
calendar. -/
def yd (y : Nat) : Nat := 365 * y + y / 4 + y / 400 - y / 100

/-- Rata-die day number of the date `y-m-d` (1-based; `0001-01-01` is
day 1, `1970-01-01` is day 719163). -/
def toRataDie (y m d : Nat) : Nat := yd (y - 1) + monthOffset (isLeap y) m + d

/-- Numeric value of a decimal digit character. -/
def digitVal (c : Char) : Nat := c.toNat - 48

/-- Month field of `strptime`'s `%m-` step: one or two digits followed by
the literal dash, maximal munch; returns the value and the rest. -/
def parseMonthPart : List Char → Option (Nat × List Char)
  | a :: b :: rest =>
    if a.isDigit then
      if b.isDigit then
        match rest with
        | '-' :: rest2 => some (10 * digitVal a + digitVal b, rest2)
        | _ => none
      else if b = '-' then some (digitVal a, rest)
      else none
    else none
  | _ => none

/-- Day field of `strptime`'s trailing `%d`: one or two digits consuming
the whole remaining input. -/
def parseDayPart : List Char → Option Nat
  | [a] => if a.isDigit then some (digitVal a) else none
  | [a, b] => if a.isDigit && b.isDigit then some (10 * digitVal a + digitVal b) else none
  | _ => none

/-- The `%Y-%m-%d` shape accepted by `strptime`: exactly four year digits,
a dash, the month, the day, nothing left over. -/
def parseYMD : List Char → Option (Nat × Nat × Nat)
  | c1 :: c2 :: c3 :: c4 :: '-' :: rest =>
    if c1.isDigit && c2.isDigit && c3.isDigit && c4.isDigit then
      match parseMonthPart rest with
      | some (m, rest2) =>
        match parseDayPart rest2 with
        | some d =>
          some (1000 * digitVal c1 + 100 * digitVal c2 + 10 * digitVal c3 + digitVal c4, m, d)
        | none => none
      | none => none
    else none
  | _ => none

/-- `datetime.strptime(s, "%Y-%m-%d")` as a partial function to
`(year, month, day)`: shape check plus the range validation done by the
`datetime` constructor (year at least 1, month 1-12, day within the
month).  `none` models the raised `ValueError`. -/
def parseDate (s : String) : Option (Nat × Nat × Nat) :=
  match parseYMD s.data with
  | some (y, m, d) =>
    if 1 ≤ y ∧ 1 ≤ m ∧ m ≤ 12 ∧ 1 ≤ d ∧ d ≤ daysInMonth y m then some (y, m, d) else none
  | none => none

/-- `utils.date_to_unix_ms` under a fixed local-timezone displacement `tz`
(milliseconds added to the UTC midnight timestamp): parse the date string
and convert midnight of that date to Unix milliseconds; an unparseable
string raises `ValueError` with the source's message. -/
def date_to_unix_ms (tz : Int) (s : String) : Except String Int :=
  match parseDate s with
  | some (y, m, d) => .ok (((toRataDie y m d : Int) - 719163) * 86400000 + tz)
  | none => .error ("Invalid date format. Expected YYYY-MM-DD, got: " ++ s)

/-! ## activty_log_pull.py -/

/-- Environment of one `get_logs` run: the audit endpoint as a map from
request offset to response (`Except.error` models `_make_request` raising
`DomoActivityLogError`), and the value `get_credential_domain()` returns
for the domain tagging. -/
structure LogsEnv where
  api : Nat → Except String (List Record)
  domain : Option String

/-- The `while True` pagination loop of `get_logs`: request the page at
the current offset; on failure log and break keeping the accumulator; on
an empty page break; otherwise extend the accumulator and advance the
offset by `batch`.  `fuel` bounds the recursion; every claim supplies
enough fuel to reach the code's own termination.  Returns the accumulator
and the trace of requested offsets. -/
def getLogsLoop (api : Nat → Except String (List Record)) (batch : Nat) :
    Nat → Nat → List Record → List Nat → List Record × List Nat
  | 0, _, acc, reqs => (acc, reqs)
  | fuel + 1, offset, acc, reqs =>
    match api offset with
    | .error _ => (acc, reqs ++ [offset])
    | .ok page =>
      if page.isEmpty then (acc, reqs ++ [offset])
      else getLogsLoop api batch fuel (offset + batch) (acc ++ page) (reqs ++ [offset])

/-- `DomoActivityLog.get_logs`: convert both dates (wrapping any
`ValueError` as `DomoActivityLogError "Invalid date format or range: ..."`),
reject `start > end`, run the pagination loop from offset 0, and either
return `None` for an empty accumulator or the records tagged with the
credential domain.  The second component is the trace of audit-endpoint
offsets requested. -/
def get_logs (env : LogsEnv) (tz : Int) (start_date end_date : String)
    (batch fuel : Nat) : Except String (Option (List Record)) × List Nat :=
  match date_to_unix_ms tz start_date with
  | .error e => (.error ("Invalid date format or range: " ++ e), [])
  | .ok s =>
    match date_to_unix_ms tz end_date with
    | .error e => (.error ("Invalid date format or range: " ++ e), [])
    | .ok en =>
      if s > en then
        (.error "Invalid date format or range: Start date must be before end date", [])
      else
        (if (getLogsLoop env.api batch fuel 0 [] []).1.isEmpty then .ok none
          else .ok (some ((getLogsLoop env.api batch fuel 0 [] []).1.map
            fun r => setField r "domain" (optToVal env.domain))),
          (getLogsLoop env.api batch fuel 0 [] []).2)

/-- An audit endpoint serving the fixed page sequence `ps` at offsets
`0, batch, 2*batch, ...` and empty pages afterwards. -/
def apiFromPages (ps : List (List Record)) (batch : Nat) :
    Nat → Except String (List Record) :=
  fun off => .ok (ps.getD (off / batch) [])

/-- An audit endpoint serving the fixed page sequence `ps` and failing
with `msg` on every later request. -/
def apiPagesErr (ps : List (List Record)) (batch : Nat) (msg : String) :
    Nat → Except String (List Record) :=
  fun off => if off / batch < ps.length then .ok (ps.getD (off / batch) []) else .error msg

/-! ## domo_dataset.py -/

/-- The `dtype_mapping` table of `DomoDataset.upload_data`. -/
def dtype_mapping : List (String × String) :=
  [("object", "STRING"), ("int64", "LONG"), ("float64", "DOUBLE"),
   ("datetime64[ns]", "DATETIME"), ("datetime64[ns, tz]", "DATETIME"),
   ("datetime64[ns, date]", "DATE")]

/-- One entry of the schema body built by `upload_data`:
`{"type": ..., "name": ...}`. -/
structure SchemaCol where
  type : String
  name : String
deriving DecidableEq

/-- The schema `upload_data` infers when no dataset id is held: one entry
per column in column order, mapping the column's dtype string through
`dtype_mapping` with default `STRING`. -/
def inferSchema (cols : List (String × String)) : List SchemaCol :=
  cols.map fun c => { type := (dtype_mapping.lookup c.2).getD "STRING", name := c.1 }

/-- Kinds of homogeneous column contents named by the spec. -/
inductive ColKind where
  | ints
  | floats
  | strs
  | datetimes
deriving DecidableEq

/-- dtype string pandas reports for a homogeneous column of each kind
(integers are int64, floats float64, strings object, datetime values
datetime64[ns]). -/
def pandasDtype : ColKind → String
  | .ints => "int64"
  | .floats => "float64"
  | .strs => "object"
  | .datetimes => "datetime64[ns]"

/-- Mutable state of a `DomoDataset` object: its `dsid` field. -/
structure DomoDataset where
  dsid : Option String
deriving DecidableEq

/-- Remote behaviour seen by one `upload_data` call: the id returned by
the dataset-creation POST (or its failure) and the outcome of the CSV
upload PUT. -/
structure DatasetEnv where
  createResp : Except String String
  uploadResp : Except String Unit

/-- `DomoDataset.create_dataset`: POST the schema; on success store the
returned id into `dsid` and return it, otherwise raise `DomoDatasetError`
leaving the state unchanged. -/
def DomoDataset.create_dataset (st : DomoDataset) (resp : Except String String) :
    Except String String × DomoDataset :=
  match resp with
  | .error e => (.error ("Failed to create dataset: " ++ e), st)
  | .ok newId => (.ok newId, { st with dsid := some newId })

/-- `DomoDataset.upload_data`: when `dsid` is falsy, first create the
dataset (adopting the returned id); then PUT the CSV payload.  Returns the
result, the post-state, and whether a creation POST was attempted. -/
def DomoDataset.upload_data (st : DomoDataset) (env : DatasetEnv) :
    Except String Bool × DomoDataset × Bool :=
  if truthyStr st.dsid then
    match env.uploadResp with
    | .error e => (.error ("Failed to upload data: " ++ e), st, false)
    | .ok _ => (.ok true, st, false)
  else
    match st.create_dataset env.createResp with
    | (.error e, st1) => (.error e, st1, true)
    | (.ok _, st1) =>
      match env.uploadResp with
      | .error e => (.error ("Failed to upload data: " ++ e), st1, true)
      | .ok _ => (.ok true, st1, true)

/-! ## Date order -/

/-- Strict chronological order on `(year, month, day)` triples. -/
def dateLt (a b : Nat × Nat × Nat) : Prop :=
  a.1 < b.1 ∨ (a.1 = b.1 ∧ (a.2.1 < b.2.1 ∨ (a.2.1 = b.2.1 ∧ a.2.2 < b.2.2)))

/-- Chronological order on `(year, month, day)` triples. -/
def dateLe (a b : Nat × Nat × Nat) : Prop :=
  a.1 < b.1 ∨ (a.1 = b.1 ∧ (a.2.1 < b.2.1 ∨ (a.2.1 = b.2.1 ∧ a.2.2 ≤ b.2.2)))

instance (a b : Nat × Nat × Nat) : Decidable (dateLt a b) := by
  unfold dateLt
  infer_instance

instance (a b : Nat × Nat × Nat) : Decidable (dateLe a b) := by
  unfold dateLe
  infer_instance

/-! ## Helper lemmas -/

/-- A nonempty string is truthy. -/
lemma truthyStr_some_of_ne {s : String} (h : s ≠ "") : truthyStr (some s) = true := by
  have hE : s.isEmpty = false := by
    cases hi : s.isEmpty
    · rfl
    · exact absurd (String.isEmpty_iff s |>.mp hi) h
  simp [truthyStr, hE]

/-- The refresh flag returned by the token property is exactly the code's
refresh condition. -/
lemma token_flag (a : Authentication) (now : Int) (resp : TokenResp) :
    (a.token now resp).2.2 = (!truthyStr a.tok || a.is_token_expired now) := by
  unfold Authentication.token
  by_cases h : (!truthyStr a.tok || a.is_token_expired now) = true
  · rw [if_pos h, h]
    rcases hr : a.refresh_token now resp with ⟨e, a1⟩
    cases e <;> rfl
  · rw [if_neg h]
    simp only [Bool.not_eq_true] at h
    rw [h]

/-- When the refresh condition is false the token property is a pure read. -/
lemma token_no_refresh (a : Authentication) (now : Int) (resp : TokenResp)
    (h : (!truthyStr a.tok || a.is_token_expired now) = false) :
    a.token now resp = (.ok a.tok, a, false) := by
  unfold Authentication.token
  rw [if_neg (by simp [h])]

/-! ## Claims about auth.py -/

/-- C1: the token property refreshes exactly when no token is held or the
stored expiry minus the buffer has been reached; concretely, starting from
a fresh authenticator (buffer 5 minutes) a first read at `t0` against a
response with `expires_in = 3600` refreshes, a second read at any
`t1 < t0 + 3300` does not refresh (and leaves the state untouched), and a
read at any `t2 ≥ t0 + 3300` refreshes again. -/
theorem token_refresh_policy_spec :
    (∀ (a : Authentication) (now : Int) (resp : TokenResp),
        (a.token now resp).2.2 = true ↔
          (truthyStr a.tok = false ∨ a.is_token_expired now = true)) ∧
    (∀ (cid sec sc a1 : String) (dom : Option String) (t0 t1 t2 : Int) (r2 r3 : TokenResp),
        a1 ≠ "" → t1 < t0 + 3300 → t0 + 3300 ≤ t2 →
        ((Authentication.init cid sec sc).token t0 (.payload (some a1) (some 3600) dom)) =
          (.ok (some a1), ⟨cid, sec, sc, 5, some a1, some (t0 + 3600), dom⟩, true) ∧
        ((⟨cid, sec, sc, 5, some a1, some (t0 + 3600), dom⟩ : Authentication).token t1 r2) =
          (.ok (some a1), ⟨cid, sec, sc, 5, some a1, some (t0 + 3600), dom⟩, false) ∧
        ((⟨cid, sec, sc, 5, some a1, some (t0 + 3600), dom⟩ : Authentication).token t2 r3).2.2 =
          true) := by
  constructor
  · intro a now resp
    rw [token_flag]
    simp
  · intro cid sec sc a1 dom t0 t1 t2 r2 r3 hne h1 h2
    have ht : truthyStr (some a1) = true := truthyStr_some_of_ne hne
    have hE : a1.isEmpty = false := by
      cases hi : a1.isEmpty
      · rfl
      · exact absurd (String.isEmpty_iff a1 |>.mp hi) hne
    refine ⟨?_, ?_, ?_⟩
    · unfold Authentication.token Authentication.init Authentication.refresh_token
      simp [truthyStr, hE]
    · apply token_no_refresh
      have hexp : (⟨cid, sec, sc, 5, some a1, some (t0 + 3600), dom⟩ :
          Authentication).is_token_expired t1 = false := by
        unfold Authentication.is_token_expired
        exact decide_eq_false (by simp only []; omega)
      simp [ht, hexp]
    · rw [token_flag]
      have hexp : (⟨cid, sec, sc, 5, some a1, some (t0 + 3600), dom⟩ :
          Authentication).is_token_expired t2 = true := by
        unfold Authentication.is_token_expired
        exact decide_eq_true (by simp only []; omega)
      simp [hexp]

/-- Witness for C1 at `t0 = 0`, `t1 = 1`, `t2 = 3300`. -/
theorem token_refresh_policy_spec_witness :
    ("tok" : String) ≠ "" ∧ (1 : Int) < 0 + 3300 ∧ (0 : Int) + 3300 ≤ 3300 ∧
    (((Authentication.init "c" "s" "audit").token 0
        (.payload (some "tok") (some 3600) (some "dom"))) =
      (.ok (some "tok"), ⟨"c", "s", "audit", 5, some "tok", some (0 + 3600), some "dom"⟩, true) ∧
    ((⟨"c", "s", "audit", 5, some "tok", some (0 + 3600), some "dom"⟩ : Authentication).token 1
        .badJson) =
      (.ok (some "tok"), ⟨"c", "s", "audit", 5, some "tok", some (0 + 3600), some "dom"⟩, false) ∧
    ((⟨"c", "s", "audit", 5, some "tok", some (0 + 3600), some "dom"⟩ : Authentication).token 3300
        .badJson).2.2 = true) :=
  ⟨by decide, by decide, by decide,
    token_refresh_policy_spec.2 "c" "s" "audit" "tok" (some "dom") 0 1 3300 .badJson .badJson
      (by decide) (by decide) (by decide)⟩

/-- C5: a token-endpoint payload whose `access_token` is missing or falsy
makes the refresh raise `No access token in response`; the post-state
holds no usable token (its token field is the falsy payload value, expiry
and domain untouched, exactly the record update shown), and any later
token read performs a refresh, as from a state with no token set. -/
theorem refresh_token_missing_access_token_spec
    (a : Authentication) (now : Int) (tokval : Option String)
    (ei : Option Int) (dom : Option String) (hfalsy : truthyStr tokval = false) :
    (a.refresh_token now (.payload tokval ei dom)).1 = some "No access token in response" ∧
    (a.refresh_token now (.payload tokval ei dom)).2 = { a with tok := tokval } ∧
    truthyStr (a.refresh_token now (.payload tokval ei dom)).2.tok = false ∧
    (∀ (now2 : Int) (resp2 : TokenResp),
      ((a.refresh_token now (.payload tokval ei dom)).2.token now2 resp2).2.2 = true) := by
  have h1 : a.refresh_token now (.payload tokval ei dom) =
      (some "No access token in response", { a with tok := tokval }) := by
    unfold Authentication.refresh_token
    simp [hfalsy]
  refine ⟨by rw [h1], by rw [h1], by rw [h1]; exact hfalsy, ?_⟩
  intro now2 resp2
  rw [h1, token_flag]
  simp [hfalsy]

/-- Witness for C5: a fresh authenticator receiving a payload that lacks
the access_token field. -/
theorem refresh_token_missing_access_token_spec_witness :
    truthyStr none = false ∧
    (((Authentication.init "c" "s" "audit").refresh_token 0 (.payload none (some 3600) none)).1 =
        some "No access token in response" ∧
      ((Authentication.init "c" "s" "audit").refresh_token 0 (.payload none (some 3600) none)).2 =
        { Authentication.init "c" "s" "audit" with tok := none } ∧
      truthyStr (((Authentication.init "c" "s" "audit").refresh_token 0
          (.payload none (some 3600) none)).2).tok = false ∧
      (∀ (now2 : Int) (resp2 : TokenResp),
        (((Authentication.init "c" "s" "audit").refresh_token 0
            (.payload none (some 3600) none)).2.token now2 resp2).2.2 = true)) :=
  ⟨rfl, refresh_token_missing_access_token_spec (Authentication.init "c" "s" "audit") 0 none
    (some 3600) none rfl⟩

/-! ## Claims about utils.make_request and domo_dataset.py -/

/-- The body encoding chosen by make_request, as a function of the request
headers alone. -/
lemma make_request_sent (url : String) (headers : List (String × String)) (method : String)
    (data : Option String) (resp : HttpResponse) :
    (make_request url headers method data resp).2 =
      match data with
      | none => SentBody.noBody
      | some d =>
        if headerGetD headers "Content-Type" "application/json" = "application/json"
        then SentBody.jsonBody d else SentBody.rawBody d := by
  cases data with
  | none =>
    by_cases hs : 400 ≤ resp.status ∧ resp.status < 600
    · simp [make_request, hs]
    · by_cases hj : hasJsonContentType resp.contentType = true
      · rcases hp : resp.jsonParse with _ | v <;> simp [make_request, hs, hj, hp]
      · simp [make_request, hs, hj]
  | some d =>
    by_cases hs : 400 ≤ resp.status ∧ resp.status < 600
    · simp [make_request, hs]
    · by_cases hj : hasJsonContentType resp.contentType = true
      · rcases hp : resp.jsonParse with _ | v <;> simp [make_request, hs, hj, hp]
      · simp [make_request, hs, hj]

/-- C8 counterexample: a 304 response is not 2xx, yet make_request does
not raise — raise_for_status only raises for statuses 400-599. -/
theorem make_request_non2xx_counterexample :
    ¬ (200 ≤ (304 : Nat) ∧ (304 : Nat) < 300) ∧
    (make_request "u" [] "GET" none ⟨304, "text/plain", "body", none⟩).1 =
      .ok (.textVal "body") := by
  constructor
  · decide
  · rfl

/-- C8 (amended): the body is serialized as JSON exactly when the request
Content-Type header equals application/json (the default when the header
is unset) and is otherwise sent raw; a 4xx or 5xx response status raises
(other non-2xx statuses, such as 304, do not); and a non-error response is
decoded as JSON when its Content-Type contains application/json and is
otherwise returned as raw text. -/
theorem make_request_content_negotiation_spec
    (url method : String) (headers : List (String × String)) (d : String)
    (data : Option String) (resp : HttpResponse) :
    ((make_request url headers method (some d) resp).2 = .jsonBody d ↔
      headerGetD headers "Content-Type" "application/json" = "application/json") ∧
    ((make_request url headers method (some d) resp).2 = .rawBody d ↔
      headerGetD headers "Content-Type" "application/json" ≠ "application/json") ∧
    (headers.lookup "Content-Type" = none →
      headerGetD headers "Content-Type" "application/json" = "application/json") ∧
    (400 ≤ resp.status → resp.status < 600 →
      ∃ e, (make_request url headers method data resp).1 = .error e) ∧
    (¬ (400 ≤ resp.status ∧ resp.status < 600) →
      (hasJsonContentType resp.contentType = false →
        (make_request url headers method data resp).1 = .ok (.textVal resp.body)) ∧
      (∀ v, hasJsonContentType resp.contentType = true → resp.jsonParse = some v →
        (make_request url headers method data resp).1 = .ok (.jsonVal v))) := by
  refine ⟨?_, ?_, ?_, ?_, ?_⟩
  · rw [make_request_sent]
    by_cases h : headerGetD headers "Content-Type" "application/json" = "application/json" <;>
      simp [h]
  · rw [make_request_sent]
    by_cases h : headerGetD headers "Content-Type" "application/json" = "application/json" <;>
      simp [h]
  · intro h
    unfold headerGetD
    rw [h]
    rfl
  · intro h4 h6
    unfold make_request
    rw [if_pos ⟨h4, h6⟩]
    exact ⟨_, rfl⟩
  · intro hst
    constructor
    · intro hct
      unfold make_request
      rw [if_neg hst, if_neg (by simp [hct])]
    · intro v hct hj
      unfold make_request
      rw [if_neg hst, if_pos (by simp [hct]), hj]

/-- Witness for C8 at a CSV request and a CSV response. -/
theorem make_request_content_negotiation_spec_witness :
    headerGetD [("Content-Type", "text/csv")] "Content-Type" "application/json" ≠
      "application/json" ∧
    (make_request "u" [("Content-Type", "text/csv")] "PUT" (some "x")
        ⟨200, "text/csv", "ok", none⟩).2 = .rawBody "x" :=
  ⟨by decide,
    ((make_request_content_negotiation_spec "u" "PUT" [("Content-Type", "text/csv")] "x"
        (some "x") ⟨200, "text/csv", "ok", none⟩).2.1).mpr (by decide)⟩

/-- C7: a table with integer, string and datetime columns named id, name,
ts is inferred (when no dataset id is supplied) as the schema
LONG, STRING, DATETIME in column order under the fixed dtype mapping. -/
theorem upload_schema_inference_spec :
    inferSchema
        [("id", pandasDtype .ints), ("name", pandasDtype .strs), ("ts", pandasDtype .datetimes)] =
      [⟨"LONG", "id"⟩, ⟨"STRING", "name"⟩, ⟨"DATETIME", "ts"⟩] := rfl

/-- C10: when no dataset id is held, a successful creation stores the new
id into dsid before the upload is attempted; if the upload then fails the
error is raised but dsid keeps the created id, so a retry of upload_data
performs no second creation. -/
theorem upload_data_creates_once_spec
    (st : DomoDataset) (env : DatasetEnv) (newId msg : String)
    (hds : truthyStr st.dsid = false) (hc : env.createResp = .ok newId)
    (hu : env.uploadResp = .error msg) (hid : newId ≠ "") :
    (∃ e, (st.upload_data env).1 = .error e) ∧
    (st.upload_data env).2.1.dsid = some newId ∧
    (st.upload_data env).2.2 = true ∧
    (∀ env2 : DatasetEnv, ((st.upload_data env).2.1.upload_data env2).2.2 = false) := by
  have h1 : st.upload_data env =
      (.error ("Failed to upload data: " ++ msg), { st with dsid := some newId }, true) := by
    unfold DomoDataset.upload_data DomoDataset.create_dataset
    rw [hds, hc, hu]
    simp
  refine ⟨⟨_, by rw [h1]⟩, by rw [h1], by rw [h1], ?_⟩
  intro env2
  rw [h1]
  unfold DomoDataset.upload_data
  rw [if_pos (by simpa using truthyStr_some_of_ne hid)]
  rcases h2 : env2.uploadResp with e | u <;> simp

/-- Witness for C10: fresh sink, creation returns ds1, upload fails. -/
theorem upload_data_creates_once_spec_witness :
    truthyStr (DomoDataset.mk none).dsid = false ∧
    (Except.ok "ds1" : Except String String) = .ok "ds1" ∧
    (Except.error "boom" : Except String Unit) = .error "boom" ∧
    ("ds1" : String) ≠ "" ∧
    ((∃ e, ((DomoDataset.mk none).upload_data ⟨.ok "ds1", .error "boom"⟩).1 = .error e) ∧
      ((DomoDataset.mk none).upload_data ⟨.ok "ds1", .error "boom"⟩).2.1.dsid = some "ds1" ∧
      ((DomoDataset.mk none).upload_data ⟨.ok "ds1", .error "boom"⟩).2.2 = true ∧
      (∀ env2 : DatasetEnv,
        (((DomoDataset.mk none).upload_data ⟨.ok "ds1", .error "boom"⟩).2.1.upload_data
            env2).2.2 = false)) :=
  ⟨rfl, rfl, rfl, by decide,
    upload_data_creates_once_spec (DomoDataset.mk none) ⟨.ok "ds1", .error "boom"⟩ "ds1" "boom"
      rfl rfl rfl (by decide)⟩

/-! ## Lemmas about the record tagging and the pagination loop -/

/-- Replacing column k in place makes a lookup of k find the new value. -/
lemma lookup_map_set (k : String) (v : FieldVal) :
    ∀ r : Record, r.any (fun p => p.1 == k) = true →
      (r.map fun p => if p.1 == k then (k, v) else p).lookup k = some v := by
  intro r
  induction r with
  | nil => intro h; simp at h
  | cons p t ih =>
    rcases p with ⟨pk, pv⟩
    intro h
    by_cases hp : (pk == k) = true
    · simp only [List.map_cons]
      rw [show (if (pk, pv).1 == k then (k, v) else (pk, pv)) = (k, v) by simp [hp]]
      simp [List.lookup]
    · rw [Bool.not_eq_true] at hp
      have hk : (k == pk) = false :=
        beq_eq_false_iff_ne.mpr fun he => (beq_eq_false_iff_ne.mp hp) he.symm
      simp only [List.any_cons, Bool.or_eq_true] at h
      rcases h with h | h
      · rw [hp] at h; exact absurd h (by simp)
      · simp only [List.map_cons]
        rw [show ((if (pk, pv).1 == k then (k, v) else (pk, pv))) = (pk, pv) by simp [hp]]
        simp only [List.lookup, hk]
        exact ih h

/-- Appending a fresh column k makes a lookup of k find its value. -/
lemma lookup_append_new (k : String) (v : FieldVal) :
    ∀ r : Record, r.any (fun p => p.1 == k) = false →
      (r ++ [(k, v)]).lookup k = some v := by
  intro r
  induction r with
  | nil => simp [List.lookup]
  | cons p t ih =>
    rcases p with ⟨pk, pv⟩
    intro h
    simp only [List.any_cons, Bool.or_eq_false_iff] at h
    have hk : (k == pk) = false :=
      beq_eq_false_iff_ne.mpr fun he => (beq_eq_false_iff_ne.mp h.1) he.symm
    simp only [List.cons_append, List.lookup, hk]
    exact ih h.2

/-- Looking up the column just assigned by setField yields its value. -/
lemma lookup_setField (r : Record) (k : String) (v : FieldVal) :
    (setField r k v).lookup k = some v := by
  unfold setField
  by_cases h : r.any (fun p => p.1 == k) = true
  · rw [if_pos h]
    exact lookup_map_set k v r h
  · rw [if_neg h]
    exact lookup_append_new k v r (by rwa [Bool.not_eq_true] at h)

/-- Behaviour of the pagination loop against an endpoint that serves the
nonempty pages `ps` at consecutive offsets and then terminates the loop
(with an empty page or with a failure): all pages are accumulated in
order and exactly the offsets `offset + i * batch`, `i = 0 .. ps.length`,
are requested, each once. -/
lemma getLogsLoop_pages (api : Nat → Except String (List Record)) (batch : Nat) :
    ∀ (ps : List (List Record)) (fuel offset : Nat) (acc : List Record) (reqs : List Nat),
      (∀ i, i < ps.length → api (offset + i * batch) = .ok (ps.getD i [])) →
      (api (offset + ps.length * batch) = .ok [] ∨
        ∃ msg, api (offset + ps.length * batch) = .error msg) →
      (∀ p ∈ ps, p ≠ []) → ps.length < fuel →
      getLogsLoop api batch fuel offset acc reqs =
        (acc ++ ps.flatten,
          reqs ++ (List.range (ps.length + 1)).map fun i => offset + i * batch) := by
  intro ps
  induction ps with
  | nil =>
    intro fuel offset acc reqs hpages hterm hne hfuel
    cases fuel with
    | zero => omega
    | succ f =>
      simp only [List.length_nil, Nat.zero_mul, Nat.add_zero] at hterm
      rcases hterm with h | ⟨msg, h⟩ <;>
        simp [getLogsLoop, h, show List.range 1 = [0] from rfl]
  | cons p t ih =>
    intro fuel offset acc reqs hpages hterm hne hfuel
    cases fuel with
    | zero => omega
    | succ f =>
      have h0 : api offset = .ok p := by
        have h := hpages 0 (by simp)
        simpa using h
      have hp : p ≠ [] := hne p (List.mem_cons_self p t)
      have hpe : p.isEmpty = false := by
        cases p
        · exact absurd rfl hp
        · rfl
      have hstep : getLogsLoop api batch (f + 1) offset acc reqs =
          getLogsLoop api batch f (offset + batch) (acc ++ p) (reqs ++ [offset]) := by
        simp [getLogsLoop, h0, hpe]
      rw [hstep,
        ih f (offset + batch) (acc ++ p) (reqs ++ [offset])
          (fun i hi => by
            have h := hpages (i + 1) (by simpa using Nat.succ_lt_succ hi)
            rw [show offset + batch + i * batch = offset + (i + 1) * batch by ring]
            simpa using h)
          (by
            rw [show offset + batch + t.length * batch = offset + (p :: t).length * batch by
              simp [List.length_cons]; ring]
            exact hterm)
          (fun q hq => hne q (List.mem_cons_of_mem p hq))
          (by simpa using Nat.lt_of_succ_lt_succ hfuel)]
      have hmap : (List.range (t.length + 1 + 1)).map (fun i => offset + i * batch) =
          offset :: (List.range (t.length + 1)).map (fun i => offset + batch + i * batch) := by
        rw [List.range_succ_eq_map, List.map_cons, List.map_map]
        refine congrArg₂ _ (by simp) ?_
        apply List.map_congr_left
        intro i _
        show offset + (i + 1) * batch = offset + batch + i * batch
        ring
      refine Prod.ext ?_ ?_
      · simp [List.flatten_cons, List.append_assoc]
      · simp only [List.length_cons, hmap, List.append_assoc, List.singleton_append]

/-- A list whose head exists is not isEmpty. -/
lemma isEmpty_false_of_ne_nil {α : Type} {l : List α} (h : l ≠ []) : l.isEmpty = false := by
  rcases l with _ | ⟨a, t⟩
  · exact absurd rfl h
  · rfl

/-- Flattening a nonempty list of nonempty pages is nonempty. -/
lemma flatten_ne_nil_of_pages (ps : List (List Record)) (hne : ∀ p ∈ ps, p ≠ [])
    (h : ps ≠ []) : ps.flatten ≠ [] := by
  rcases ps with _ | ⟨p, t⟩
  · exact absurd rfl h
  · intro hh
    rw [List.flatten_cons] at hh
    rcases List.append_eq_nil.mp hh with ⟨hp, _⟩
    exact hne p (List.mem_cons_self p t) hp

/-! ## Claims about activty_log_pull.get_logs -/

/-- C2: the fetch loop requests pages at offsets 0, batch, 2*batch, ...,
terminates at the first empty page, and accumulates every record of every
nonempty page in order; for page sizes 1000, 1000, 437 followed by an
empty page at batch size 1000, get_logs issues exactly the 4 requests at
offsets 0, 1000, 2000, 3000 and returns 2437 records. -/
theorem get_logs_pagination_spec :
    (∀ (api : Nat → Except String (List Record)) (ps : List (List Record)) (batch fuel : Nat),
        (∀ i, i < ps.length → api (i * batch) = .ok (ps.getD i [])) →
        api (ps.length * batch) = .ok [] →
        (∀ p ∈ ps, p ≠ []) → ps.length < fuel →
        getLogsLoop api batch fuel 0 [] [] =
          (ps.flatten, (List.range (ps.length + 1)).map fun i => i * batch)) ∧
    (∀ (p0 p1 p2 : List Record) (dom : Option String) (tz : Int),
        p0.length = 1000 → p1.length = 1000 → p2.length = 437 →
        (get_logs ⟨apiFromPages [p0, p1, p2] 1000, dom⟩ tz "2025-04-01" "2025-04-03"
            1000 100).2 = [0, 1000, 2000, 3000] ∧
        ∃ logs,
          (get_logs ⟨apiFromPages [p0, p1, p2] 1000, dom⟩ tz "2025-04-01" "2025-04-03"
              1000 100).1 = .ok (some logs) ∧ logs.length = 2437) := by
  have hgen : ∀ (api : Nat → Except String (List Record)) (ps : List (List Record))
      (batch fuel : Nat),
      (∀ i, i < ps.length → api (i * batch) = .ok (ps.getD i [])) →
      api (ps.length * batch) = .ok [] →
      (∀ p ∈ ps, p ≠ []) → ps.length < fuel →
      getLogsLoop api batch fuel 0 [] [] =
        (ps.flatten, (List.range (ps.length + 1)).map fun i => i * batch) := by
    intro api ps batch fuel hpages hterm hne hfuel
    have h := getLogsLoop_pages api batch ps fuel 0 [] []
      (fun i hi => by simpa using hpages i hi)
      (Or.inl (by simpa using hterm)) hne hfuel
    simpa using h
  refine ⟨hgen, ?_⟩
  intro p0 p1 p2 dom tz h0 h1 h2
  have hne0 : p0 ≠ [] := by intro hh; rw [hh] at h0; simp at h0
  have hne1 : p1 ≠ [] := by intro hh; rw [hh] at h1; simp at h1
  have hne2 : p2 ≠ [] := by intro hh; rw [hh] at h2; simp at h2
  have hloop := hgen (apiFromPages [p0, p1, p2] 1000) [p0, p1, p2] 1000 100
    (by
      intro i hi
      simp only [List.length_cons, List.length_nil] at hi
      interval_cases i <;> rfl)
    (by
      simp only [List.length_cons, List.length_nil]
      rfl)
    (by
      intro p hp
      simp only [List.mem_cons, List.not_mem_nil, or_false] at hp
      rcases hp with rfl | rfl | rfl
      exacts [hne0, hne1, hne2])
    (by norm_num)
  have hd1 : date_to_unix_ms tz "2025-04-01" = .ok (20179 * 86400000 + tz) := rfl
  have hd2 : date_to_unix_ms tz "2025-04-03" = .ok (20181 * 86400000 + tz) := rfl
  have hlen : (([p0, p1, p2] : List (List Record)).flatten).length = 2437 := by
    rw [show ([p0, p1, p2] : List (List Record)).flatten = p0 ++ (p1 ++ (p2 ++ [])) from rfl]
    simp only [List.length_append, List.length_nil]
    omega
  have hfne : ([p0, p1, p2] : List (List Record)).flatten ≠ [] := by
    intro hh
    rw [hh] at hlen
    simp at hlen
  have hres : get_logs ⟨apiFromPages [p0, p1, p2] 1000, dom⟩ tz "2025-04-01" "2025-04-03"
      1000 100 =
      (.ok (some ((([p0, p1, p2] : List (List Record)).flatten).map
          fun r => setField r "domain" (optToVal dom))),
        (List.range 4).map fun i => i * 1000) := by
    simp only [get_logs, hd1, hd2]
    rw [if_neg (by omega)]
    simp only [hloop, List.nil_append, isEmpty_false_of_ne_nil hfne]
    simp
  refine ⟨?_, ?_⟩
  · rw [hres]
    rfl
  · exact ⟨_, by rw [hres], by rw [List.length_map, hlen]⟩


/-- Witness for C2 with pages of empty records of the required sizes. -/
theorem get_logs_pagination_spec_witness :
    (List.replicate 1000 ([] : Record)).length = 1000 ∧
    (List.replicate 437 ([] : Record)).length = 437 ∧
    ((get_logs ⟨apiFromPages [List.replicate 1000 ([] : Record),
          List.replicate 1000 ([] : Record), List.replicate 437 ([] : Record)] 1000, none⟩
        0 "2025-04-01" "2025-04-03" 1000 100).2 = [0, 1000, 2000, 3000] ∧
      ∃ logs,
        (get_logs ⟨apiFromPages [List.replicate 1000 ([] : Record),
            List.replicate 1000 ([] : Record), List.replicate 437 ([] : Record)] 1000, none⟩
          0 "2025-04-01" "2025-04-03" 1000 100).1 = .ok (some logs) ∧ logs.length = 2437) :=
  ⟨by rw [List.length_replicate], by rw [List.length_replicate],
    get_logs_pagination_spec.2 (List.replicate 1000 ([] : Record))
      (List.replicate 1000 ([] : Record)) (List.replicate 437 ([] : Record)) none 0
      (by rw [List.length_replicate]) (by rw [List.length_replicate])
      (by rw [List.length_replicate])⟩

/-- C4: when the page request after k successfully fetched (nonempty)
pages fails, the loop stops without retrying — each offset is requested
exactly once, the failing one last — and get_logs returns the records of
the first k pages, or None when k = 0. -/
theorem get_logs_partial_failure_spec
    (ps : List (List Record)) (batch fuel : Nat) (dom : Option String) (tz : Int)
    (msg sd ed : String) (s en : Int)
    (hb : 0 < batch) (hnemp : ∀ p ∈ ps, p ≠ []) (hf : ps.length < fuel)
    (hsd : date_to_unix_ms tz sd = .ok s) (hed : date_to_unix_ms tz ed = .ok en)
    (hse : s ≤ en) :
    (get_logs ⟨apiPagesErr ps batch msg, dom⟩ tz sd ed batch fuel).2 =
      (List.range (ps.length + 1)).map (fun i => i * batch) ∧
    (ps = [] → (get_logs ⟨apiPagesErr ps batch msg, dom⟩ tz sd ed batch fuel).1 = .ok none) ∧
    (ps ≠ [] →
      (get_logs ⟨apiPagesErr ps batch msg, dom⟩ tz sd ed batch fuel).1 =
        .ok (some (ps.flatten.map fun r => setField r "domain" (optToVal dom)))) := by
  have hloop := getLogsLoop_pages (apiPagesErr ps batch msg) batch ps fuel 0 [] []
    (fun i hi => by
      unfold apiPagesErr
      rw [Nat.zero_add, Nat.mul_div_cancel _ hb, if_pos hi])
    (Or.inr ⟨msg, by
      unfold apiPagesErr
      rw [Nat.zero_add, Nat.mul_div_cancel _ hb, if_neg (lt_irrefl _)]⟩)
    hnemp hf
  rcases ps with _ | ⟨p, t⟩
  · have hres : get_logs ⟨apiPagesErr [] batch msg, dom⟩ tz sd ed batch fuel =
        (.ok none, (List.range 1).map fun i => 0 + i * batch) := by
      simp only [get_logs, hsd, hed]
      rw [if_neg (by omega)]
      simp only [hloop]
      simp
    refine ⟨?_, fun _ => ?_, fun hn => absurd rfl hn⟩
    · rw [hres]
      simp
    · rw [hres]
  · have hfne : ((p :: t) : List (List Record)).flatten ≠ [] :=
      flatten_ne_nil_of_pages (p :: t) hnemp (by simp)
    have hres : get_logs ⟨apiPagesErr (p :: t) batch msg, dom⟩ tz sd ed batch fuel =
        (.ok (some (((p :: t) : List (List Record)).flatten.map
            fun r => setField r "domain" (optToVal dom))),
          (List.range ((p :: t).length + 1)).map fun i => 0 + i * batch) := by
      simp only [get_logs, hsd, hed]
      rw [if_neg (by omega)]
      simp only [hloop, List.nil_append, isEmpty_false_of_ne_nil hfne]
      simp
    refine ⟨?_, fun hh => by simp at hh, fun _ => ?_⟩
    · rw [hres]
      simp
    · rw [hres]

/-- Witness for C4: one nonempty page, then a failing request. -/
theorem get_logs_partial_failure_spec_witness :
    0 < 10 ∧ (∀ p ∈ [[([("a", FieldVal.str "x")] : Record)]], p ≠ []) ∧ (1 : Nat) < 9 ∧
    date_to_unix_ms 0 "2025-04-01" = .ok 1743465600000 ∧
    date_to_unix_ms 0 "2025-04-03" = .ok 1743638400000 ∧
    (1743465600000 : Int) ≤ 1743638400000 ∧
    ((get_logs ⟨apiPagesErr [[([("a", FieldVal.str "x")] : Record)]] 10 "boom", some "D"⟩
        0 "2025-04-01" "2025-04-03" 10 9).2 = (List.range 2).map (fun i => i * 10) ∧
      ([[([("a", FieldVal.str "x")] : Record)]] = ([] : List (List Record)) →
        (get_logs ⟨apiPagesErr [[([("a", FieldVal.str "x")] : Record)]] 10 "boom", some "D"⟩
          0 "2025-04-01" "2025-04-03" 10 9).1 = .ok none) ∧
      ([[([("a", FieldVal.str "x")] : Record)]] ≠ ([] : List (List Record)) →
        (get_logs ⟨apiPagesErr [[([("a", FieldVal.str "x")] : Record)]] 10 "boom", some "D"⟩
          0 "2025-04-01" "2025-04-03" 10 9).1 =
          .ok (some (([[([("a", FieldVal.str "x")] : Record)]] :
              List (List Record)).flatten.map
            fun r => setField r "domain" (optToVal (some "D")))))) :=
  ⟨by decide, by decide, by decide, rfl, rfl, by decide,
    get_logs_partial_failure_spec [[([("a", FieldVal.str "x")] : Record)]] 10 9 (some "D") 0
      "boom" "2025-04-01" "2025-04-03" 1743465600000 1743638400000
      (by decide) (by decide) (by decide) rfl rfl (by decide)⟩

/-- C6: whenever get_logs returns a table, every record of the table
carries a domain field holding exactly the value obtained from the
authenticator's credential domain; and when the loop accumulates nothing
(with valid dates) the result is None. -/
theorem get_logs_domain_tag_spec (env : LogsEnv) (tz : Int) (sd ed : String) (batch fuel : Nat) :
    (∀ logs, (get_logs env tz sd ed batch fuel).1 = .ok (some logs) →
      ∀ r ∈ logs, r.lookup "domain" = some (optToVal env.domain)) ∧
    (∀ s en, date_to_unix_ms tz sd = .ok s → date_to_unix_ms tz ed = .ok en → ¬ s > en →
      (getLogsLoop env.api batch fuel 0 [] []).1 = [] →
      (get_logs env tz sd ed batch fuel).1 = .ok none) := by
  constructor
  · intro logs hres r hr
    unfold get_logs at hres
    split at hres
    · simp at hres
    · split at hres
      · simp at hres
      · split at hres
        · simp at hres
        · split at hres
          · simp at hres
          · simp only [Except.ok.injEq, Option.some.injEq] at hres
            subst hres
            rcases List.mem_map.mp hr with ⟨r0, _, rfl⟩
            exact lookup_setField r0 "domain" (optToVal env.domain)
  · intro s en h1 h2 h3 hempty
    simp only [get_logs, h1, h2]
    rw [if_neg h3]
    simp [hempty]

/-- Witness for C6: a one-page endpoint and a concrete domain. -/
theorem get_logs_domain_tag_spec_witness :
    ((get_logs ⟨fun off => if off = 0 then .ok [[("a", FieldVal.str "x")]] else .ok [],
        some "D"⟩ 0 "2025-04-01" "2025-04-03" 1000 5).1 =
      .ok (some [[("a", FieldVal.str "x"), ("domain", FieldVal.str "D")]])) ∧
    ([("a", FieldVal.str "x"), ("domain", FieldVal.str "D")] : Record) ∈
      [[("a", FieldVal.str "x"), ("domain", FieldVal.str "D")]] ∧
    ([("a", FieldVal.str "x"), ("domain", FieldVal.str "D")] : Record).lookup "domain" =
      some (optToVal (some "D")) :=
  ⟨rfl, by decide,
    (get_logs_domain_tag_spec
        ⟨fun off => if off = 0 then .ok [[("a", FieldVal.str "x")]] else .ok [], some "D"⟩
        0 "2025-04-01" "2025-04-03" 1000 5).1
      [[("a", FieldVal.str "x"), ("domain", FieldVal.str "D")]] rfl
      [("a", FieldVal.str "x"), ("domain", FieldVal.str "D")] (by decide)⟩

/-! ## Calendar arithmetic for the date claims -/

/-- Length of a year given its leap flag. -/
def dyear (l : Bool) : Nat := if l then 366 else 365

set_option maxHeartbeats 1000000 in
/-- One more complete year adds exactly that year's length of days. -/
lemma yd_succ (y : Nat) : yd (y + 1) = yd y + dyear (isLeap (y + 1)) := by
  unfold dyear
  by_cases h : isLeap (y + 1) = true
  · rw [if_pos h]
    unfold isLeap at h
    simp only [Bool.or_eq_true, Bool.and_eq_true, beq_iff_eq, bne_iff_ne] at h
    unfold yd
    omega
  · rw [if_neg h]
    unfold isLeap at h
    simp only [Bool.or_eq_true, Bool.and_eq_true, beq_iff_eq, bne_iff_ne] at h
    unfold yd
    omega

/-- The complete-years day count is monotone. -/
lemma yd_mono {y1 y2 : Nat} (h : y1 ≤ y2) : yd y1 ≤ yd y2 := by
  have h4 : y1 / 4 ≤ y2 / 4 := Nat.div_le_div_right h
  have h400 : y1 / 400 ≤ y2 / 400 := Nat.div_le_div_right h
  have h100 : y2 / 100 ≤ y1 / 100 + (y2 - y1) := by
    have h1 : y2 ≤ y1 + (y2 - y1) * 100 := by omega
    calc y2 / 100 ≤ (y1 + (y2 - y1) * 100) / 100 := Nat.div_le_div_right h1
      _ = y1 / 100 + (y2 - y1) := Nat.add_mul_div_right _ _ (by norm_num)
  unfold yd
  omega

/-- A whole month fits before the start of any later month of the year. -/
lemma monthOffset_le (l : Bool) :
    ∀ m1, m1 < 13 → ∀ m2, m2 < 13 → 1 ≤ m1 → m1 < m2 →
      monthOffset l m1 + monthLen l m1 ≤ monthOffset l m2 := by
  cases l <;> decide

/-- Every month ends within the year. -/
lemma monthOffset_year (l : Bool) :
    ∀ m, m < 13 → 1 ≤ m → monthOffset l m + monthLen l m ≤ dyear l := by
  cases l <;> decide

/-- A parsed date satisfies the validity bounds checked by the parser. -/
lemma parseDate_valid {s : String} {y m d : Nat} (h : parseDate s = some (y, m, d)) :
    1 ≤ y ∧ 1 ≤ m ∧ m ≤ 12 ∧ 1 ≤ d ∧ d ≤ daysInMonth y m := by
  unfold parseDate at h
  rcases hp : parseYMD s.data with _ | ⟨y', m', d'⟩
  · rw [hp] at h
    simp at h
  · rw [hp] at h
    have h' : (if 1 ≤ y' ∧ 1 ≤ m' ∧ m' ≤ 12 ∧ 1 ≤ d' ∧ d' ≤ daysInMonth y' m'
        then some (y', m', d') else none) = some (y, m, d) := h
    by_cases hc : 1 ≤ y' ∧ 1 ≤ m' ∧ m' ≤ 12 ∧ 1 ≤ d' ∧ d' ≤ daysInMonth y' m'
    · rw [if_pos hc] at h'
      simp only [Option.some.injEq, Prod.mk.injEq] at h'
      obtain ⟨rfl, rfl, rfl⟩ := h'
      exact hc
    · rw [if_neg hc] at h'
      simp at h'

/-- Rata-die day numbers respect strict chronological order of valid
dates. -/
lemma toRataDie_lt (y1 m1 d1 y2 m2 d2 : Nat)
    (hy1 : 1 ≤ y1) (hm1 : 1 ≤ m1) (hm1' : m1 ≤ 12) (hd1 : 1 ≤ d1)
    (hd1' : d1 ≤ daysInMonth y1 m1)
    (hy2 : 1 ≤ y2) (hm2 : 1 ≤ m2) (hm2' : m2 ≤ 12) (hd2 : 1 ≤ d2)
    (hlt : dateLt (y1, m1, d1) (y2, m2, d2)) :
    toRataDie y1 m1 d1 < toRataDie y2 m2 d2 := by
  rcases hlt with hy | ⟨heq, hm | ⟨heq2, hd⟩⟩
  · have hA := monthOffset_year (isLeap y1) m1 (by omega) hm1
    have hB := yd_succ (y1 - 1)
    rw [show y1 - 1 + 1 = y1 from by omega] at hB
    have hC := yd_mono (show y1 ≤ y2 - 1 from by omega)
    unfold daysInMonth at hd1'
    unfold toRataDie
    omega
  · simp only at heq
    subst heq
    simp only at hm
    have hA := monthOffset_le (isLeap y1) m1 (by omega) m2 (by omega) hm1 hm
    unfold daysInMonth at hd1'
    unfold toRataDie
    omega
  · simp only at heq heq2 hd
    subst heq
    subst heq2
    unfold toRataDie
    omega

/-- Rata-die day numbers respect chronological order of valid dates. -/
lemma toRataDie_le (y1 m1 d1 y2 m2 d2 : Nat)
    (hy1 : 1 ≤ y1) (hm1 : 1 ≤ m1) (hm1' : m1 ≤ 12) (hd1 : 1 ≤ d1)
    (hd1' : d1 ≤ daysInMonth y1 m1)
    (hy2 : 1 ≤ y2) (hm2 : 1 ≤ m2) (hm2' : m2 ≤ 12) (hd2 : 1 ≤ d2)
    (hle : dateLe (y1, m1, d1) (y2, m2, d2)) :
    toRataDie y1 m1 d1 ≤ toRataDie y2 m2 d2 := by
  rcases hle with hy | ⟨heq, hm | ⟨heq2, hd⟩⟩
  · exact Nat.le_of_lt (toRataDie_lt y1 m1 d1 y2 m2 d2 hy1 hm1 hm1' hd1 hd1' hy2 hm2 hm2' hd2
      (Or.inl hy))
  · exact Nat.le_of_lt (toRataDie_lt y1 m1 d1 y2 m2 d2 hy1 hm1 hm1' hd1 hd1' hy2 hm2 hm2' hd2
      (Or.inr ⟨heq, Or.inl hm⟩))
  · simp only at heq heq2 hd
    subst heq
    subst heq2
    unfold toRataDie
    omega

/-! ## Claims about utils.date_to_unix_ms -/

/-- C9: date conversion is deterministic (equal strings get equal
timestamps under a fixed timezone) and monotone: valid date strings in
chronological order convert to millisecond timestamps in the same
order. -/
theorem date_to_unix_ms_mono_spec
    (tz : Int) (s1 s2 : String) (y1 m1 d1 y2 m2 d2 : Nat)
    (h1 : parseDate s1 = some (y1, m1, d1)) (h2 : parseDate s2 = some (y2, m2, d2))
    (hle : dateLe (y1, m1, d1) (y2, m2, d2)) :
    (∀ s1' s2' : String, s1' = s2' → date_to_unix_ms tz s1' = date_to_unix_ms tz s2') ∧
    ∃ t1 t2, date_to_unix_ms tz s1 = .ok t1 ∧ date_to_unix_ms tz s2 = .ok t2 ∧ t1 ≤ t2 := by
  obtain ⟨hy1, hm1, hm1', hd1, hd1'⟩ := parseDate_valid h1
  obtain ⟨hy2, hm2, hm2', hd2, hd2'⟩ := parseDate_valid h2
  refine ⟨fun _ _ he => by rw [he], ?_⟩
  refine ⟨((toRataDie y1 m1 d1 : Int) - 719163) * 86400000 + tz,
    ((toRataDie y2 m2 d2 : Int) - 719163) * 86400000 + tz,
    by unfold date_to_unix_ms; rw [h1], by unfold date_to_unix_ms; rw [h2], ?_⟩
  have hrd := toRataDie_le y1 m1 d1 y2 m2 d2 hy1 hm1 hm1' hd1 hd1' hy2 hm2 hm2' hd2 hle
  have hrdz : (toRataDie y1 m1 d1 : Int) ≤ toRataDie y2 m2 d2 := by exact_mod_cast hrd
  omega

/-- Witness for C9 at two concrete dates two days apart. -/
theorem date_to_unix_ms_mono_spec_witness :
    parseDate "2025-04-01" = some (2025, 4, 1) ∧
    parseDate "2025-04-03" = some (2025, 4, 3) ∧
    dateLe (2025, 4, 1) (2025, 4, 3) ∧
    ((∀ s1' s2' : String, s1' = s2' → date_to_unix_ms 0 s1' = date_to_unix_ms 0 s2') ∧
      ∃ t1 t2, date_to_unix_ms 0 "2025-04-01" = .ok t1 ∧
        date_to_unix_ms 0 "2025-04-03" = .ok t2 ∧ t1 ≤ t2) :=
  ⟨rfl, rfl, by decide,
    date_to_unix_ms_mono_spec 0 "2025-04-01" "2025-04-03" 2025 4 1 2025 4 3 rfl rfl (by decide)⟩

/-- C3: an unparseable date string, or a start date after the end date,
makes get_logs raise the fetch error whose message begins with
"Invalid date format or range" before any audit request is issued (the
request trace is empty). -/
theorem get_logs_invalid_dates_spec
    (env : LogsEnv) (tz : Int) (sd ed : String) (batch fuel : Nat)
    (hbad : parseDate sd = none ∨ parseDate ed = none ∨
      ∃ y1 m1 d1 y2 m2 d2, parseDate sd = some (y1, m1, d1) ∧
        parseDate ed = some (y2, m2, d2) ∧ dateLt (y2, m2, d2) (y1, m1, d1)) :
    (∃ rest, (get_logs env tz sd ed batch fuel).1 =
      .error ("Invalid date format or range: " ++ rest)) ∧
    (get_logs env tz sd ed batch fuel).2 = [] := by
  rcases hbad with h | h | ⟨y1, m1, d1, y2, m2, d2, hs, he, hlt⟩
  · have hd : date_to_unix_ms tz sd =
        .error ("Invalid date format. Expected YYYY-MM-DD, got: " ++ sd) := by
      unfold date_to_unix_ms
      rw [h]
    exact ⟨⟨"Invalid date format. Expected YYYY-MM-DD, got: " ++ sd,
      by simp [get_logs, hd]⟩, by simp [get_logs, hd]⟩
  · rcases hp : parseDate sd with _ | ⟨⟨ya, ma, da⟩⟩
    · have hd : date_to_unix_ms tz sd =
          .error ("Invalid date format. Expected YYYY-MM-DD, got: " ++ sd) := by
        unfold date_to_unix_ms
        rw [hp]
      exact ⟨⟨"Invalid date format. Expected YYYY-MM-DD, got: " ++ sd,
        by simp [get_logs, hd]⟩, by simp [get_logs, hd]⟩
    · have hds : date_to_unix_ms tz sd =
          .ok (((toRataDie ya ma da : Int) - 719163) * 86400000 + tz) := by
        unfold date_to_unix_ms
        rw [hp]
      have hde : date_to_unix_ms tz ed =
          .error ("Invalid date format. Expected YYYY-MM-DD, got: " ++ ed) := by
        unfold date_to_unix_ms
        rw [h]
      exact ⟨⟨"Invalid date format. Expected YYYY-MM-DD, got: " ++ ed,
        by simp [get_logs, hds, hde]⟩, by simp [get_logs, hds, hde]⟩
  · have hds : date_to_unix_ms tz sd =
        .ok (((toRataDie y1 m1 d1 : Int) - 719163) * 86400000 + tz) := by
      unfold date_to_unix_ms
      rw [hs]
    have hde : date_to_unix_ms tz ed =
        .ok (((toRataDie y2 m2 d2 : Int) - 719163) * 86400000 + tz) := by
      unfold date_to_unix_ms
      rw [he]
    obtain ⟨hy1, hm1, hm1', hd1, hd1'⟩ := parseDate_valid hs
    obtain ⟨hy2, hm2, hm2', hd2, hd2'⟩ := parseDate_valid he
    have hrd := toRataDie_lt y2 m2 d2 y1 m1 d1 hy2 hm2 hm2' hd2 hd2' hy1 hm1 hm1' hd1 hlt
    have hrdz : (toRataDie y2 m2 d2 : Int) < toRataDie y1 m1 d1 := by exact_mod_cast hrd
    have hgt : (((toRataDie y1 m1 d1 : Int) - 719163) * 86400000 + tz) >
        (((toRataDie y2 m2 d2 : Int) - 719163) * 86400000 + tz) := by omega
    refine ⟨⟨"Start date must be before end date", ?_⟩, ?_⟩
    · simp only [get_logs, hds, hde]
      rw [if_pos hgt]
      rfl
    · simp only [get_logs, hds, hde]
      rw [if_pos hgt]

/-- Witness for C3: start date strictly after end date. -/
theorem get_logs_invalid_dates_spec_witness :
    (parseDate "2025-04-03" = none ∨ parseDate "2025-04-01" = none ∨
      ∃ y1 m1 d1 y2 m2 d2, parseDate "2025-04-03" = some (y1, m1, d1) ∧
        parseDate "2025-04-01" = some (y2, m2, d2) ∧ dateLt (y2, m2, d2) (y1, m1, d1)) ∧
    ((∃ rest,
        (get_logs ⟨fun _ => .ok [], none⟩ 0 "2025-04-03" "2025-04-01" 1000 10).1 =
          .error ("Invalid date format or range: " ++ rest)) ∧
      (get_logs ⟨fun _ => .ok [], none⟩ 0 "2025-04-03" "2025-04-01" 1000 10).2 = []) :=
  ⟨Or.inr (Or.inr ⟨2025, 4, 3, 2025, 4, 1, rfl, rfl, by decide⟩),
    get_logs_invalid_dates_spec ⟨fun _ => .ok [], none⟩ 0 "2025-04-03" "2025-04-01" 1000 10
      (Or.inr (Or.inr ⟨2025, 4, 3, 2025, 4, 1, rfl, rfl, by decide⟩))⟩
